import Mathlib

/-!
# Update validation of `ClusterConfig` and the route lookup of the manager

A shallow embedding of `api/v1alpha1/clusterconfig_webhook.go`
(`ValidateCreate`, `ValidateUpdate`, `isStatusUpdate`, `ValidateDelete`,
`BMHRefsMatch`) and of `routeURL` in `cmd/manager/main.go`, followed by the
properties of the update rule and of the lookup.

Conventions of the embedding.

* A Go pointer whose `nil` is data (`*BareMetalHostReference`) is an `Option`;
  dereferencing it is the fallible operation `deref`, so a function that
  dereferences returns `Except Panic _` and "does not fail" is a theorem.
* In the first version of the functions a `*ClusterConfig` snapshot is the
  value it points to: the receiver and the decoded old object are allocated
  objects, and a nil snapshot is outside the model. The second version
  (namespace `Mem`) keeps the objects in a heap and passes addresses, to state
  what a call leaves in memory.
* A nil slice and a nil `error` are `none`.
* `reflect.DeepEqual` on the data held by a `ClusterConfig` (strings, integers,
  pointers, slices, maps and structs of these; no floats and no funcs) is an
  equivalence relation; values of the model stand for Go values up to it, so
  it is decidable equality of the model. A nil and an empty slice are
  different values (`none` and `some []`).
* The log line at the start of `ValidateUpdate` writes to the process logger
  only; the first version leaves it out, the heap version keeps its read of
  the receiver.
* In `routeURL` the client and `(*url.URL).String` are library code and enter
  as parameters; the lookups made through the client are part of the result.
-/

namespace V1alpha1

/-! ## Data model -/

/-- Modelled from the spec: the declaration of `BareMetalHostReference` is in
the types file of the package, which is not among the sources. The spec gives
it as the value object with the two fields name and namespace; the tests build
it with `Name` and `Namespace`. -/
structure BareMetalHostReference where
  Name : String
  Namespace : String
deriving DecidableEq, Repr

/-- The two fields of `metav1.TypeMeta`. -/
structure TypeMeta where
  Kind : String
  APIVersion : String
deriving DecidableEq, Repr

/-- Modelled from the spec: `metav1.ObjectMeta` with the metadata the spec
names (name, namespace, resource version) and the finalizers; the remaining
fields of the library type (labels, annotations, owner references and so on)
are the parameter `μ`. -/
structure ObjectMeta (μ : Type) where
  Name : String
  Namespace : String
  ResourceVersion : String
  Finalizers : Option (List String)
  Rest : μ
deriving DecidableEq, Repr

/-- Modelled from the spec: `ClusterConfigSpec`, declared in the types file of
the package, which is not among the sources. `Domain` is the field of the
embedded `clusterinfo.ClusterInfo` that the tests change, `BareMetalHostRef`
the optional binding; every other field of the spec (the rest of the cluster
identity included) is the parameter `σ`. -/
structure ClusterConfigSpec (σ : Type) where
  Domain : String
  BareMetalHostRef : Option BareMetalHostReference
  Rest : σ
deriving DecidableEq, Repr

/-- Modelled from the spec: `ClusterConfig`, declared in the types file of the
package, which is not among the sources: type and object metadata, spec and
status. The status type `ClusterConfigStatus` is the parameter `τ`; its zero
value `ClusterConfigStatus{}` is `default`. -/
structure ClusterConfig (μ σ τ : Type) where
  TypeMeta : TypeMeta
  ObjectMeta : ObjectMeta μ
  Spec : ClusterConfigSpec σ
  Status : τ
deriving DecidableEq, Repr

/-- A `runtime.Object` handed to the validator as the old object: the nil
interface, a `*ClusterConfig`, or an object of another Go type (named by its
kind). -/
inductive RuntimeObject (μ σ τ : Type) where
  | nil : RuntimeObject μ σ τ
  | clusterConfig (c : ClusterConfig μ σ τ) : RuntimeObject μ σ τ
  | other (kind : String) : RuntimeObject μ σ τ
deriving DecidableEq, Repr

/-- A run-time panic of the Go program. -/
inductive Panic where
  | nilDereference : Panic
deriving DecidableEq, Repr

/-- `admission.Warnings`, a `[]string`; `none` is the nil slice. -/
abbrev Warnings := Option (List String)

/-- A Go `error` value: `none` is nil, `some msg` an error with that text. -/
abbrev GoError := Option String

/-- What a validator hands back: `(admission.Warnings, error)`. -/
abbrev Verdict := Warnings × GoError

/-- Dereference `*p`: a nil pointer panics. -/
def deref {α : Type} (p : Option α) : Except Panic α :=
  match p with
  | some v => .ok v
  | none => .error Panic.nilDereference

/-- The message of the rejection in `ValidateUpdate`. -/
def bindingConflictMessage : String :=
  "Cannot update ClusterConfig when BareMetalHostRef is set, unset BareMetalHostRef before making changes"

/-- The message of the failed type assertion in `ValidateUpdate`. -/
def typeMismatchMessage : String :=
  "old object is not a ClusterConfig"

/-! ## The functions of `clusterconfig_webhook.go` -/

section Code

variable {μ σ τ : Type}

/-- The generated `DeepCopy`: a fresh object with the same contents. On values
a copy is the value itself. -/
def ClusterConfig.DeepCopy (c : ClusterConfig μ σ τ) : ClusterConfig μ σ τ := c

/-- Source `BMHRefsMatch` (lines 82-92). -/
def BMHRefsMatch (ref1 ref2 : Option BareMetalHostReference) : Except Panic Bool :=
  if ref1 = none ∧ ref2 = none then
    pure true
  else if (ref1 = none ∧ ref2 ≠ none) ∨ (ref1 ≠ none ∧ ref2 = none) then
    pure false
  else do
    let v1 ← deref ref1
    let v2 ← deref ref2
    pure (decide (v1 = v2))

/-- Source `isStatusUpdate` (lines 69-75): both snapshots are copied, the
status of each copy is set to `ClusterConfigStatus{}`, and the copies are
compared with `reflect.DeepEqual`. -/
def isStatusUpdate [DecidableEq μ] [DecidableEq σ] [DecidableEq τ] [Inhabited τ]
    (oldConfig r : ClusterConfig μ σ τ) : Bool :=
  let oldConfigCopy := oldConfig.DeepCopy
  let oldConfigCopy := { oldConfigCopy with Status := (default : τ) }
  let newCopy := r.DeepCopy
  let newCopy := { newCopy with Status := (default : τ) }
  decide (oldConfigCopy = newCopy)

/-- Source `ValidateCreate` (lines 42-44). -/
def ClusterConfig.ValidateCreate (_r : ClusterConfig μ σ τ) : Verdict :=
  (none, none)

/-- Source `ValidateUpdate` (lines 47-67). -/
def ClusterConfig.ValidateUpdate [DecidableEq μ] [DecidableEq σ] [DecidableEq τ] [Inhabited τ]
    (r : ClusterConfig μ σ τ) (old : RuntimeObject μ σ τ) : Except Panic Verdict :=
  match old with
  | .clusterConfig oldConfig =>
    if oldConfig.Spec.BareMetalHostRef = none ∧ r.Spec.BareMetalHostRef = none then
      pure (none, none)
    else if isStatusUpdate oldConfig r then
      pure (none, none)
    else do
      if (← BMHRefsMatch oldConfig.Spec.BareMetalHostRef r.Spec.BareMetalHostRef) then
        pure (none, some bindingConflictMessage)
      else
        pure (none, none)
  | _ => pure (none, some typeMismatchMessage)

/-- Source `ValidateDelete` (lines 78-80). -/
def ClusterConfig.ValidateDelete (_r : ClusterConfig μ σ τ) : Verdict :=
  (none, none)

end Code

/-! ## Reading a result -/

/-- The call returned, and its error is not nil. -/
def returnsError (res : Except Panic Verdict) : Bool :=
  match res with
  | .ok (_, some _) => true
  | _ => false

/-- The call returned, and its error is nil. -/
def returnsNoError (res : Except Panic Verdict) : Bool :=
  match res with
  | .ok (_, none) => true
  | _ => false

/-- The two snapshots differ in a field outside `Status`. -/
def differOutsideStatus {μ σ τ : Type} (a b : ClusterConfig μ σ τ) : Prop :=
  a.TypeMeta ≠ b.TypeMeta ∨ a.ObjectMeta ≠ b.ObjectMeta ∨ a.Spec ≠ b.Spec

instance {μ σ τ : Type} [DecidableEq μ] [DecidableEq σ] (a b : ClusterConfig μ σ τ) :
    Decidable (differOutsideStatus a b) := by
  unfold differOutsideStatus
  infer_instance

/-! ## Snapshots of the test suite

The objects of `clusterconfig_webhook_test.go`, used to run the definitions on
concrete inputs. -/

/-- The fields of `metav1.Condition` that the tests set. -/
structure Condition where
  Type_ : String
  Status : String
  Reason : String
  Message : String
deriving DecidableEq, Repr

/-- Modelled from the spec: `ClusterConfigStatus`, declared in the types file
of the package, which is not among the sources: the condition records reported
by the reconciler. -/
structure ClusterConfigStatus where
  Conditions : Option (List Condition)
deriving DecidableEq, Repr

/-- The zero value `ClusterConfigStatus{}`. -/
instance : Inhabited ClusterConfigStatus := ⟨⟨none⟩⟩

/-- A `ClusterConfig` with no further metadata and spec fields. -/
abbrev TestConfig := ClusterConfig Unit Unit ClusterConfigStatus

/-- The reference `{test-bmh, test-bmh-namespace}` of the tests. -/
def testBMH : BareMetalHostReference := ⟨"test-bmh", "test-bmh-namespace"⟩

/-- The reference `{other-bmh, test-bmh-namespace}` of the tests. -/
def otherBMH : BareMetalHostReference := ⟨"other-bmh", "test-bmh-namespace"⟩

/-- The object `config` in `test-namespace` of the tests, with the given
domain, binding and status. -/
def testConfig (domain : String) (ref : Option BareMetalHostReference)
    (st : ClusterConfigStatus) : TestConfig :=
  { TypeMeta := ⟨"", ""⟩
    ObjectMeta := ⟨"config", "test-namespace", "", none, ()⟩
    Spec := ⟨domain, ref, ()⟩
    Status := st }

/-- A status holding one condition, as `meta.SetStatusCondition` leaves it in
the tests (the constants of the condition are declared outside the sources;
their texts here are placeholders). -/
def imageReadyStatus : ClusterConfigStatus :=
  ⟨some [⟨"ImageReady", "True", "ImageReady", "Image is ready for use"⟩]⟩

/-- The object of the tests with the given finalizers in its metadata, and
the given domain, binding and status. -/
def testConfigWithFinalizers (finalizers : Option (List String)) (domain : String)
    (ref : Option BareMetalHostReference) (st : ClusterConfigStatus) : TestConfig :=
  { TypeMeta := ⟨"", ""⟩
    ObjectMeta := ⟨"config", "test-namespace", "", finalizers, ()⟩
    Spec := ⟨domain, ref, ()⟩
    Status := st }

/-! ## The same functions on objects in memory

`ValidateUpdate` receives pointers, and `isStatusUpdate` assigns to the
`Status` of objects. Here the `ClusterConfig` objects live in a heap, a
`*ClusterConfig` is an address, `DeepCopy` allocates and the assignment writes
to a cell, so that what a call leaves in memory can be stated. A pointer that
is nil or dangling is an address outside the heap; reading or writing through
it panics. -/

/-- A `*ClusterConfig`: the address of a cell of the heap. -/
abbrev Ptr := Nat

/-- The `ClusterConfig` objects in memory, by address. -/
abbrev Heap (μ σ τ : Type) := List (ClusterConfig μ σ τ)

/-- A `runtime.Object` by reference: the nil interface, a `*ClusterConfig`, or
an object of another Go type. -/
inductive ObjectRef where
  | nil : ObjectRef
  | clusterConfig (p : Ptr) : ObjectRef
  | other (kind : String) : ObjectRef
deriving DecidableEq, Repr

namespace Mem

section Code

variable {μ σ τ : Type}

/-- Read the object at `p`. -/
def load (h : Heap μ σ τ) (p : Ptr) : Except Panic (ClusterConfig μ σ τ) :=
  deref h[p]?

/-- Allocate a fresh cell holding `c`; the new address and the new heap. -/
def alloc (h : Heap μ σ τ) (c : ClusterConfig μ σ τ) : Ptr × Heap μ σ τ :=
  (h.length, h ++ [c])

/-- The assignment `p.Status = s`. -/
def storeStatus (h : Heap μ σ τ) (p : Ptr) (s : τ) : Except Panic (Heap μ σ τ) := do
  let c ← load h p
  pure (h.set p { c with Status := s })

/-- The call `p.DeepCopy()`: a fresh object with the contents of `*p`. -/
def DeepCopy (h : Heap μ σ τ) (p : Ptr) : Except Panic (Ptr × Heap μ σ τ) := do
  let c ← load h p
  pure (alloc h c.DeepCopy)

/-- Source `isStatusUpdate` (lines 69-75), with its two copies and its two
assignments made in the heap; `reflect.DeepEqual` of two pointers compares the
objects they point to. -/
def isStatusUpdate [DecidableEq μ] [DecidableEq σ] [DecidableEq τ] [Inhabited τ]
    (oldConfig r : Ptr) (h : Heap μ σ τ) : Except Panic (Bool × Heap μ σ τ) := do
  let (oldConfigCopy, h) ← DeepCopy h oldConfig
  let h ← storeStatus h oldConfigCopy (default : τ)
  let (newCopy, h) ← DeepCopy h r
  let h ← storeStatus h newCopy (default : τ)
  let a ← load h oldConfigCopy
  let b ← load h newCopy
  pure (decide (a = b), h)

/-- Source `ValidateUpdate` (lines 47-67) on the heap. The log line reads
`r.Name`, the first access through the receiver; every later access to a
field reads the heap as it is at that point. -/
def ValidateUpdate [DecidableEq μ] [DecidableEq σ] [DecidableEq τ] [Inhabited τ]
    (r : Ptr) (old : ObjectRef) (h : Heap μ σ τ) : Except Panic (Verdict × Heap μ σ τ) := do
  let _ ← load h r
  match old with
  | .clusterConfig oldConfig => do
    let o ← load h oldConfig
    let n ← load h r
    if o.Spec.BareMetalHostRef = none ∧ n.Spec.BareMetalHostRef = none then
      pure ((none, none), h)
    else do
      let (b, h) ← isStatusUpdate oldConfig r h
      if b then
        pure ((none, none), h)
      else do
        let o ← load h oldConfig
        let n ← load h r
        if (← BMHRefsMatch o.Spec.BareMetalHostRef n.Spec.BareMetalHostRef) then
          pure ((none, some bindingConflictMessage), h)
        else
          pure ((none, none), h)
  | _ => pure ((none, some typeMismatchMessage), h)

end Code

end Mem

/-- A heap holding the bound object of the tests at address 0 and the same
object with a changed domain and a reported condition at address 1. -/
def testHeap : Heap Unit Unit ClusterConfigStatus :=
  [testConfig "thing.example.com" (some testBMH) default,
   testConfig "stuff.example.com" (some testBMH) imageReadyStatus]

/-- The comparison the spec proposes in place of `isStatusUpdate`, in the
words of the spec: field-wise equality of the spec and of the identity
metadata (name, namespace), the status left out. -/
def specAndIdentityEqual {μ σ τ : Type} [DecidableEq σ] (a b : ClusterConfig μ σ τ) : Bool :=
  decide (a.Spec = b.Spec) &&
    (decide (a.ObjectMeta.Name = b.ObjectMeta.Name) &&
      decide (a.ObjectMeta.Namespace = b.ObjectMeta.Namespace))

end V1alpha1

/-! ## The route lookup of `cmd/manager/main.go` -/

namespace Manager

/-- The fields of `controllers.ImageClusterInstallReconcilerOptions` that
`routeURL` reads, all strings there. The type is declared in package
`controllers`, outside the sources; its other fields are not read by
`routeURL`. -/
structure ImageClusterInstallReconcilerOptions where
  RouteName : String
  RouteNamespace : String
  RouteScheme : String
  RoutePort : String
deriving DecidableEq, Repr

/-- The type `client.ObjectKey`, a namespaced name. -/
structure ObjectKey where
  Namespace : String
  Name : String
deriving DecidableEq, Repr

/-- The text of a key under `%s`: namespace, a slash, name. -/
def keyString (k : ObjectKey) : String :=
  k.Namespace ++ "/" ++ k.Name

/-- The part of `routev1.RouteSpec` read by `routeURL`. -/
structure RouteSpec where
  Host : String
deriving DecidableEq, Repr

/-- The part of `routev1.Route` read by `routeURL`. -/
structure Route where
  Spec : RouteSpec
deriving DecidableEq, Repr

/-- The fields of `url.URL` set by `routeURL`; the others keep their zero
value. -/
structure URL where
  Scheme : String
  Host : String
deriving DecidableEq, Repr

/-- The method `Get` of a `client.Client` for routes: the error of the lookup,
or the route it stores in the object passed in. -/
structure Client where
  Get : ObjectKey → Except String Route

/-- What `routeURL` hands back, `(string, error)`, together with the lookups
it made through the client, in order. -/
abbrev RouteResult := (String × Option String) × List ObjectKey

/-- Source `routeURL` (lines 171-190). `urlString` is the library method
`(*url.URL).String`. -/
def routeURL (urlString : URL → String) (opts : ImageClusterInstallReconcilerOptions)
    (c : Client) : RouteResult :=
  if opts.RouteName = "" ∨ opts.RouteNamespace = "" ∨ opts.RouteScheme = "" then
    (("", some "ROUTE_NAME, ROUTE_NAMESPACE, and ROUTE_SCHEME must be set"), [])
  else
    let key : ObjectKey := { Name := opts.RouteName, Namespace := opts.RouteNamespace }
    match c.Get key with
    | .error err => (("", some err), [key])
    | .ok route =>
      let host := route.Spec.Host
      if host = "" then
        (("", some ("route " ++ keyString key ++ " host is unset")), [key])
      else
        let host := if opts.RoutePort ≠ "" then host ++ ":" ++ opts.RoutePort else host
        ((urlString { Scheme := opts.RouteScheme, Host := host }, none), [key])

/-- The text `(*url.URL).String` gives for a URL with a scheme and a host that
needs no escaping. -/
def plainURLString (u : URL) : String :=
  u.Scheme ++ "://" ++ u.Host

/-- A client that knows one route, `image-service` in `operator-ns`, with the
given host, and fails on every other key. -/
def oneRouteClient (host : String) : Client :=
  { Get := fun key =>
      if key = { Namespace := "operator-ns", Name := "image-service" } then
        .ok { Spec := { Host := host } }
      else
        .error "route not found" }

end Manager

namespace V1alpha1

/-! ## Shared lemmas -/

section Lemmas

variable {μ σ τ : Type} [DecidableEq μ] [DecidableEq σ] [DecidableEq τ] [Inhabited τ]

lemma BMHRefsMatch_eq_decide (ref1 ref2 : Option BareMetalHostReference) :
    BMHRefsMatch ref1 ref2 = .ok (decide (ref1 = ref2)) := by
  cases ref1 <;> cases ref2 <;> simp [BMHRefsMatch, deref, pure, Except.pure, bind, Except.bind]

lemma BareMetalHostReference_eq_iff (X Y : BareMetalHostReference) :
    X = Y ↔ X.Name = Y.Name ∧ X.Namespace = Y.Namespace := by
  cases X; cases Y; simp

lemma isStatusUpdate_iff (oldConfig r : ClusterConfig μ σ τ) :
    isStatusUpdate oldConfig r = true ↔ ¬ differOutsideStatus oldConfig r := by
  cases oldConfig; cases r
  simp [isStatusUpdate, ClusterConfig.DeepCopy, differOutsideStatus]

/-- The verdict of `ValidateUpdate` on a `ClusterConfig`, in closed form. -/
lemma ValidateUpdate_clusterConfig (r oldConfig : ClusterConfig μ σ τ) :
    r.ValidateUpdate (.clusterConfig oldConfig) =
      .ok (none,
        if (oldConfig.Spec.BareMetalHostRef ≠ none ∨ r.Spec.BareMetalHostRef ≠ none) ∧
            oldConfig.Spec.BareMetalHostRef = r.Spec.BareMetalHostRef ∧
            differOutsideStatus oldConfig r
        then some bindingConflictMessage else none) := by
  have hs := isStatusUpdate_iff oldConfig r
  simp only [ClusterConfig.ValidateUpdate, BMHRefsMatch_eq_decide]
  by_cases h1 : oldConfig.Spec.BareMetalHostRef = none ∧ r.Spec.BareMetalHostRef = none
  · have : ¬ (oldConfig.Spec.BareMetalHostRef ≠ none ∨ r.Spec.BareMetalHostRef ≠ none) := by
      rcases h1 with ⟨a, b⟩; simp [a, b]
    simp [h1, this, pure, Except.pure]
  · have h1b : oldConfig.Spec.BareMetalHostRef ≠ none ∨ r.Spec.BareMetalHostRef ≠ none := by
      by_contra hc; push_neg at hc; exact h1 hc
    by_cases h2 : isStatusUpdate oldConfig r = true
    · have : ¬ differOutsideStatus oldConfig r := hs.mp h2
      simp [h1, h2, this, pure, Except.pure]
    · have hd : differOutsideStatus oldConfig r := by
        by_contra hc; exact h2 (hs.mpr hc)
      by_cases h3 : oldConfig.Spec.BareMetalHostRef = r.Spec.BareMetalHostRef
      · simp [h1, h2, h1b, hd, h3, pure, Except.pure, bind, Except.bind]
        split_ifs <;> rfl
      · simp [h1, h2, h1b, hd, h3, pure, Except.pure, bind, Except.bind]

lemma returnsError_ite (P : Prop) [Decidable P] (msg : String) :
    returnsError (.ok (none, if P then some msg else none)) = true ↔ P := by
  by_cases hP : P
  · rw [if_pos hP]; exact ⟨fun _ => hP, fun _ => rfl⟩
  · rw [if_neg hP]; exact ⟨fun h => (by cases h), fun h => absurd h hP⟩

lemma returnsNoError_ite (P : Prop) [Decidable P] (msg : String) :
    returnsNoError (.ok (none, if P then some msg else none)) = true ↔ ¬ P := by
  by_cases hP : P
  · rw [if_pos hP]; exact ⟨fun h => (by cases h), fun h => absurd hP h⟩
  · rw [if_neg hP]; exact ⟨fun _ => hP, fun _ => rfl⟩

lemma messages_ne : bindingConflictMessage ≠ typeMismatchMessage := by decide

end Lemmas

/-! ## Lemmas on the heap -/

section HeapLemmas

variable {μ σ τ : Type}

lemma Mem.load_eq {h : Heap μ σ τ} {p : Ptr} {c : ClusterConfig μ σ τ}
    (hp : h[p]? = some c) : Mem.load h p = .ok c := by
  simp [Mem.load, hp, deref]

lemma Mem.getElem?_append_of_some {h : Heap μ σ τ} {p : Ptr} {c : ClusterConfig μ σ τ}
    (hp : h[p]? = some c) (l : Heap μ σ τ) : (h ++ l)[p]? = some c := by
  have hlt : p < h.length := (List.getElem?_eq_some.mp hp).1
  rw [List.getElem?_append_left hlt, hp]

lemma Mem.getElem?_append_length (h : Heap μ σ τ) (c : ClusterConfig μ σ τ) (l : Heap μ σ τ) :
    (h ++ c :: l)[h.length]? = some c := by
  rw [List.getElem?_append_right (le_refl _)]
  simp

lemma Mem.DeepCopy_eq {h : Heap μ σ τ} {p : Ptr} {c : ClusterConfig μ σ τ}
    (hp : h[p]? = some c) : Mem.DeepCopy h p = .ok (h.length, h ++ [c]) := by
  simp [Mem.DeepCopy, Mem.load_eq hp, Mem.alloc, ClusterConfig.DeepCopy, bind, Except.bind, pure,
    Except.pure]

lemma Mem.storeStatus_last (h : Heap μ σ τ) (c : ClusterConfig μ σ τ) (s : τ) :
    Mem.storeStatus (h ++ [c]) h.length s = .ok (h ++ [{ c with Status := s }]) := by
  simp [Mem.storeStatus, Mem.load_eq (Mem.getElem?_append_length h c []), bind, Except.bind, pure,
    Except.pure]

variable [DecidableEq μ] [DecidableEq σ] [DecidableEq τ] [Inhabited τ]

/-- The heap version of `isStatusUpdate` computes `isStatusUpdate` of the two
objects and leaves the heap extended by the two copies. -/
lemma Mem.isStatusUpdate_eq (h : Heap μ σ τ) (oldConfig r : Ptr) (o n : ClusterConfig μ σ τ)
    (ho : h[oldConfig]? = some o) (hn : h[r]? = some n) :
    Mem.isStatusUpdate oldConfig r h =
      .ok (V1alpha1.isStatusUpdate o n,
        h ++ [{ o with Status := (default : τ) }, { n with Status := (default : τ) }]) := by
  have e1 := Mem.DeepCopy_eq ho
  have e2 := Mem.storeStatus_last h o (default : τ)
  have e3 := Mem.DeepCopy_eq (Mem.getElem?_append_of_some hn [{ o with Status := (default : τ) }])
  have e4 := Mem.storeStatus_last (h ++ [{ o with Status := (default : τ) }]) n (default : τ)
  have e5 := Mem.load_eq (Mem.getElem?_append_length h { o with Status := (default : τ) }
    [{ n with Status := (default : τ) }])
  have e6 := Mem.load_eq (Mem.getElem?_append_length (h ++ [{ o with Status := (default : τ) }])
    { n with Status := (default : τ) } [])
  simp only [List.append_assoc, List.singleton_append, List.length_append, List.length_singleton]
    at e3 e4 e6
  unfold Mem.isStatusUpdate
  simp only [e1, e2, e3, e4, e5, e6, bind, Except.bind, pure, Except.pure]
  rfl

/-- The heap version of `ValidateUpdate` on two objects in memory returns the
verdict of `ValidateUpdate` on the two objects, in a heap that extends the
one it started from. -/
lemma Mem.ValidateUpdate_on_heap (h : Heap μ σ τ) (oldConfig r : Ptr)
    (o n : ClusterConfig μ σ τ) (ho : h[oldConfig]? = some o) (hn : h[r]? = some n) :
    ∃ v extra, Mem.ValidateUpdate r (.clusterConfig oldConfig) h = .ok (v, h ++ extra) ∧
      n.ValidateUpdate (.clusterConfig o) = .ok v := by
  have l1 := Mem.load_eq ho
  have l2 := Mem.load_eq hn
  unfold Mem.ValidateUpdate ClusterConfig.ValidateUpdate
  simp only [l1, l2, bind, Except.bind, pure, Except.pure]
  by_cases h1 : o.Spec.BareMetalHostRef = none ∧ n.Spec.BareMetalHostRef = none
  · rw [if_pos h1, if_pos h1]
    exact ⟨_, [], by rw [List.append_nil], rfl⟩
  · rw [if_neg h1, if_neg h1]
    simp only [Mem.isStatusUpdate_eq h oldConfig r o n ho hn]
    by_cases h2 : V1alpha1.isStatusUpdate o n = true
    · simp only [h2, if_true]
      exact ⟨_, _, rfl, rfl⟩
    · have l3 := Mem.load_eq (Mem.getElem?_append_of_some ho
        [{ o with Status := (default : τ) }, { n with Status := (default : τ) }])
      have l4 := Mem.load_eq (Mem.getElem?_append_of_some hn
        [{ o with Status := (default : τ) }, { n with Status := (default : τ) }])
      simp only [h2, l3, l4, BMHRefsMatch_eq_decide]
      by_cases h3 : o.Spec.BareMetalHostRef = n.Spec.BareMetalHostRef
      · simp only [decide_eq_true h3, if_true]
        exact ⟨_, _, rfl, rfl⟩
      · simp only [decide_eq_false h3]
        exact ⟨_, _, rfl, rfl⟩

end HeapLemmas

/-! ## The update rule -/

section UpdateRule

variable {μ σ τ : Type} [DecidableEq μ] [DecidableEq σ] [DecidableEq τ] [Inhabited τ]

/-- C1: on two `ClusterConfig` snapshots, `ValidateUpdate` returns an error if
and only if at least one of the two `BareMetalHostRef` is set, `BMHRefsMatch`
of the two references is true, and the snapshots differ in a field outside
`Status`; in every other case it returns with a nil error. -/
theorem ValidateUpdate_error_iff (r oldConfig : ClusterConfig μ σ τ) :
    (returnsError (r.ValidateUpdate (.clusterConfig oldConfig)) = true ↔
      (oldConfig.Spec.BareMetalHostRef ≠ none ∨ r.Spec.BareMetalHostRef ≠ none) ∧
      BMHRefsMatch oldConfig.Spec.BareMetalHostRef r.Spec.BareMetalHostRef = .ok true ∧
      differOutsideStatus oldConfig r) ∧
    (returnsNoError (r.ValidateUpdate (.clusterConfig oldConfig)) = true ↔
      ¬ ((oldConfig.Spec.BareMetalHostRef ≠ none ∨ r.Spec.BareMetalHostRef ≠ none) ∧
        BMHRefsMatch oldConfig.Spec.BareMetalHostRef r.Spec.BareMetalHostRef = .ok true ∧
        differOutsideStatus oldConfig r)) := by
  rw [ValidateUpdate_clusterConfig, BMHRefsMatch_eq_decide]
  have hm : (Except.ok (decide (oldConfig.Spec.BareMetalHostRef = r.Spec.BareMetalHostRef)) :
      Except Panic Bool) = Except.ok true ↔
      oldConfig.Spec.BareMetalHostRef = r.Spec.BareMetalHostRef := by
    constructor
    · intro h
      injection h with h
      exact of_decide_eq_true h
    · intro h
      rw [decide_eq_true h]
  rw [hm]
  exact ⟨returnsError_ite _ _, returnsNoError_ite _ _⟩

/-- C2: when the two `BareMetalHostRef` values are not equal under
`BMHRefsMatch` (nil to set, set to nil, or repointed), `ValidateUpdate`
returns no error and no warnings, whatever else differs between the
snapshots. -/
theorem ValidateUpdate_refs_differ (r oldConfig : ClusterConfig μ σ τ)
    (h : BMHRefsMatch oldConfig.Spec.BareMetalHostRef r.Spec.BareMetalHostRef = .ok false) :
    r.ValidateUpdate (.clusterConfig oldConfig) = .ok (none, none) := by
  rw [BMHRefsMatch_eq_decide] at h
  injection h with h
  have hne : oldConfig.Spec.BareMetalHostRef ≠ r.Spec.BareMetalHostRef := of_decide_eq_false h
  rw [ValidateUpdate_clusterConfig, if_neg]
  exact fun hc => hne hc.2.1

/-- C3: when both snapshots have a nil `BareMetalHostRef`, `ValidateUpdate`
returns no error and no warnings, whatever else differs between them. -/
theorem ValidateUpdate_both_nil (r oldConfig : ClusterConfig μ σ τ)
    (hold : oldConfig.Spec.BareMetalHostRef = none) (hnew : r.Spec.BareMetalHostRef = none) :
    r.ValidateUpdate (.clusterConfig oldConfig) = .ok (none, none) := by
  rw [ValidateUpdate_clusterConfig, if_neg]
  rintro ⟨h | h, -, -⟩
  · exact h hold
  · exact h hnew

/-- C4: when the two snapshots are equal once the `Status` of each is replaced
by the empty `ClusterConfigStatus` (a status-only update), `ValidateUpdate`
returns no error and no warnings, also with a `BareMetalHostRef` set on both
sides. -/
theorem ValidateUpdate_status_only (r oldConfig : ClusterConfig μ σ τ)
    (h : { oldConfig with Status := (default : τ) } = { r with Status := (default : τ) }) :
    r.ValidateUpdate (.clusterConfig oldConfig) = .ok (none, none) := by
  obtain ⟨h1, h2, h3, -⟩ := ClusterConfig.mk.inj h
  rw [ValidateUpdate_clusterConfig, if_neg]
  rintro ⟨-, -, hd | hd | hd⟩
  · exact hd h1
  · exact hd h2
  · exact hd h3

/-- C5: the verdict of `ValidateUpdate` does not depend on `Status`: with the
status of the old snapshot replaced by any `s1` and that of the new one by any
`s2`, the result is the same, so an error is returned exactly when it is
returned on the original pair. -/
theorem ValidateUpdate_status_independent (r oldConfig : ClusterConfig μ σ τ) (s1 s2 : τ) :
    ({ r with Status := s2 }).ValidateUpdate (.clusterConfig { oldConfig with Status := s1 }) =
        r.ValidateUpdate (.clusterConfig oldConfig) ∧
    returnsError
        (({ r with Status := s2 }).ValidateUpdate (.clusterConfig { oldConfig with Status := s1 })) =
      returnsError (r.ValidateUpdate (.clusterConfig oldConfig)) := by
  have key : ({ r with Status := s2 }).ValidateUpdate
      (.clusterConfig { oldConfig with Status := s1 }) =
        r.ValidateUpdate (.clusterConfig oldConfig) := by
    rw [ValidateUpdate_clusterConfig, ValidateUpdate_clusterConfig]
    rfl
  exact ⟨key, by rw [key]⟩

/-- C2 at the nil-to-set update of the tests, with the domain changed in the
same update. -/
theorem ValidateUpdate_refs_differ_witness :
    BMHRefsMatch (testConfig "thing.example.com" none default).Spec.BareMetalHostRef
        (testConfig "stuff.example.com" (some testBMH) default).Spec.BareMetalHostRef =
      .ok false ∧
    (testConfig "stuff.example.com" (some testBMH) default).ValidateUpdate
        (.clusterConfig (testConfig "thing.example.com" none default)) =
      .ok (none, none) :=
  ⟨rfl, ValidateUpdate_refs_differ _ _ rfl⟩

/-- C3 at the first update of the tests: no binding on either side, the domain
changed. -/
theorem ValidateUpdate_both_nil_witness :
    (testConfig "thing.example.com" none default).Spec.BareMetalHostRef = none ∧
    (testConfig "stuff.example.com" none default).Spec.BareMetalHostRef = none ∧
    (testConfig "stuff.example.com" none default).ValidateUpdate
        (.clusterConfig (testConfig "thing.example.com" none default)) =
      .ok (none, none) :=
  ⟨rfl, rfl, ValidateUpdate_both_nil _ _ rfl rfl⟩

/-- C4 at the status update of the tests: the same binding on both sides, a
condition added to the status. -/
theorem ValidateUpdate_status_only_witness :
    ({ testConfig "thing.example.com" (some testBMH) default with
        Status := (default : ClusterConfigStatus) } =
      { testConfig "thing.example.com" (some testBMH) imageReadyStatus with
        Status := (default : ClusterConfigStatus) }) ∧
    (testConfig "thing.example.com" (some testBMH) imageReadyStatus).ValidateUpdate
        (.clusterConfig (testConfig "thing.example.com" (some testBMH) default)) =
      .ok (none, none) :=
  ⟨rfl, ValidateUpdate_status_only _ _ rfl⟩

/-- C6, as stated, fails: with the binding repointed from `test-bmh` to
`other-bmh` and the domain changed in the same update, `ValidateUpdate`
returns no error, and the new spec is neither the old spec nor the old spec
with the binding cleared. -/
theorem ValidateUpdate_bound_spec_counterexample :
    (testConfig "thing.example.com" (some testBMH) default).Spec.BareMetalHostRef ≠ none ∧
    (testConfig "stuff.example.com" (some otherBMH) default).ValidateUpdate
        (.clusterConfig (testConfig "thing.example.com" (some testBMH) default)) =
      .ok (none, none) ∧
    ¬ ((testConfig "stuff.example.com" (some otherBMH) default).Spec =
          (testConfig "thing.example.com" (some testBMH) default).Spec ∨
        (testConfig "stuff.example.com" (some otherBMH) default).Spec =
          { (testConfig "thing.example.com" (some testBMH) default).Spec with
            BareMetalHostRef := none }) :=
  ⟨by decide, rfl, by decide⟩

/-- C6, amended: once bound, the spec is immutable unless the binding itself
changes. When the old `BareMetalHostRef` is set and `ValidateUpdate` returns no
error, the new spec equals the old spec, or the new `BareMetalHostRef` differs
from the old one (cleared or repointed). -/
theorem ValidateUpdate_bound_spec (r oldConfig : ClusterConfig μ σ τ)
    (hb : oldConfig.Spec.BareMetalHostRef ≠ none)
    (hok : returnsNoError (r.ValidateUpdate (.clusterConfig oldConfig)) = true) :
    r.Spec = oldConfig.Spec ∨
      r.Spec.BareMetalHostRef ≠ oldConfig.Spec.BareMetalHostRef := by
  rw [ValidateUpdate_clusterConfig, returnsNoError_ite] at hok
  by_cases href : oldConfig.Spec.BareMetalHostRef = r.Spec.BareMetalHostRef
  · left
    by_contra hne
    exact hok ⟨Or.inl hb, href, Or.inr (Or.inr fun h => hne h.symm)⟩
  · right
    exact fun h => href h.symm

/-- C6 amended, at an update that clears the binding and changes the domain. -/
theorem ValidateUpdate_bound_spec_witness :
    (testConfig "thing.example.com" (some testBMH) default).Spec.BareMetalHostRef ≠ none ∧
    returnsNoError ((testConfig "stuff.example.com" none default).ValidateUpdate
        (.clusterConfig (testConfig "thing.example.com" (some testBMH) default))) = true ∧
    ((testConfig "stuff.example.com" none default).Spec =
        (testConfig "thing.example.com" (some testBMH) default).Spec ∨
      (testConfig "stuff.example.com" none default).Spec.BareMetalHostRef ≠
        (testConfig "thing.example.com" (some testBMH) default).Spec.BareMetalHostRef) :=
  ⟨by decide, rfl, ValidateUpdate_bound_spec _ _ (by decide) (by rfl)⟩

/-- C7, as stated, fails: on an old object that is not a `ClusterConfig`,
`ValidateUpdate` itself returns an error, the type-mismatch one, although no
binding is set on the new snapshot. -/
theorem ValidateUpdate_type_mismatch_counterexample :
    (testConfig "thing.example.com" none default).Spec.BareMetalHostRef = none ∧
    (testConfig "thing.example.com" none default).ValidateUpdate (.other "Pod") =
      .ok (none, some "old object is not a ClusterConfig") ∧
    returnsError ((testConfig "thing.example.com" none default).ValidateUpdate (.other "Pod")) =
      true :=
  ⟨rfl, rfl, rfl⟩

/-- C7, amended: `ValidateUpdate` always returns, with one of three results:
no error, the binding-conflict rejection, or the type-mismatch error. It
returns the type-mismatch error exactly when the old object is not a
`ClusterConfig`, and the binding-conflict rejection exactly when the old
object is a `ClusterConfig`, a binding is set on one side, the references
match, and the snapshots differ outside `Status`. Warnings are nil in all
three. -/
theorem ValidateUpdate_errors (r : ClusterConfig μ σ τ) (old : RuntimeObject μ σ τ) :
    (r.ValidateUpdate old = .ok (none, none) ∨
      r.ValidateUpdate old = .ok (none, some bindingConflictMessage) ∨
      r.ValidateUpdate old = .ok (none, some typeMismatchMessage)) ∧
    (r.ValidateUpdate old = .ok (none, some typeMismatchMessage) ↔
      ∀ c, old ≠ .clusterConfig c) ∧
    (r.ValidateUpdate old = .ok (none, some bindingConflictMessage) ↔
      ∃ c, old = .clusterConfig c ∧
        (c.Spec.BareMetalHostRef ≠ none ∨ r.Spec.BareMetalHostRef ≠ none) ∧
        BMHRefsMatch c.Spec.BareMetalHostRef r.Spec.BareMetalHostRef = .ok true ∧
        differOutsideStatus c r) := by
  have hne := messages_ne
  cases old with
  | nil =>
    refine ⟨Or.inr (Or.inr rfl), ⟨fun _ c h => (by cases h), fun _ => rfl⟩, ⟨fun h => ?_, ?_⟩⟩
    · exact absurd (by injection h with h; injection h with _ h; injection h with h; exact h.symm) hne
    · rintro ⟨c, h, -⟩; cases h
  | other kind =>
    refine ⟨Or.inr (Or.inr rfl), ⟨fun _ c h => (by cases h), fun _ => rfl⟩, ⟨fun h => ?_, ?_⟩⟩
    · exact absurd (by injection h with h; injection h with _ h; injection h with h; exact h.symm) hne
    · rintro ⟨c, h, -⟩; cases h
  | clusterConfig c =>
    rw [ValidateUpdate_clusterConfig]
    by_cases hc : (c.Spec.BareMetalHostRef ≠ none ∨ r.Spec.BareMetalHostRef ≠ none) ∧
        c.Spec.BareMetalHostRef = r.Spec.BareMetalHostRef ∧ differOutsideStatus c r
    · rw [if_pos hc]
      refine ⟨Or.inr (Or.inl rfl), ⟨fun h => ?_, fun h => absurd rfl (h c)⟩, ⟨fun _ => ?_, fun _ => rfl⟩⟩
      · exact absurd (by injection h with h; injection h with _ h; injection h with h) hne
      · exact ⟨c, rfl, hc.1, by rw [BMHRefsMatch_eq_decide, decide_eq_true hc.2.1], hc.2.2⟩
    · rw [if_neg hc]
      refine ⟨Or.inl rfl, ⟨fun h => ?_, fun h => absurd rfl (h c)⟩, ⟨fun h => ?_, ?_⟩⟩
      · injection h with h; injection h with _ h; cases h
      · injection h with h; injection h with _ h; cases h
      · rintro ⟨c2, h, h1, h2, h3⟩
        injection h with h
        subst h
        rw [BMHRefsMatch_eq_decide] at h2
        injection h2 with h2
        exact absurd ⟨h1, of_decide_eq_true h2, h3⟩ hc

/-- C8: the validators never produce warnings. `ValidateUpdate` returns with
nil warnings for every receiver and every old object, whether its error is nil
or not, and `ValidateCreate` and `ValidateDelete` return nil warnings. -/
theorem validators_no_warnings (r : ClusterConfig μ σ τ) (old : RuntimeObject μ σ τ) :
    (∃ e : GoError, r.ValidateUpdate old = .ok (none, e)) ∧
    r.ValidateCreate.1 = none ∧ r.ValidateDelete.1 = none := by
  refine ⟨?_, rfl, rfl⟩
  cases old with
  | nil => exact ⟨_, rfl⟩
  | other kind => exact ⟨_, rfl⟩
  | clusterConfig c => exact ⟨_, ValidateUpdate_clusterConfig r c⟩

end UpdateRule

/-! ## Reference equality -/

/-- C9: `BMHRefsMatch` is nil-aware field-wise equality. Two nil references
match, a nil and a set reference do not match in either order, and two set
references match exactly when their `Name` and their `Namespace` are equal. -/
theorem BMHRefsMatch_nil_aware :
    BMHRefsMatch none none = .ok true ∧
    (∀ X : BareMetalHostReference,
      BMHRefsMatch none (some X) = .ok false ∧ BMHRefsMatch (some X) none = .ok false) ∧
    (∀ X Y : BareMetalHostReference,
      BMHRefsMatch (some X) (some Y) =
        .ok (decide (X.Name = Y.Name ∧ X.Namespace = Y.Namespace))) := by
  refine ⟨rfl, fun X => ⟨rfl, rfl⟩, fun X Y => ?_⟩
  rw [BMHRefsMatch_eq_decide]
  congr 1
  rw [decide_eq_decide, Option.some_inj]
  exact BareMetalHostReference_eq_iff X Y

/-- C10: `BMHRefsMatch` is total, reflexive and symmetric on optional
references: it returns a boolean, without a panic, for every pair of
arguments; it is true on every pair of equal arguments; and swapping the
arguments does not change the result. -/
theorem BMHRefsMatch_total_refl_symm :
    (∀ a b : Option BareMetalHostReference, ∃ v : Bool, BMHRefsMatch a b = .ok v) ∧
    (∀ a : Option BareMetalHostReference, BMHRefsMatch a a = .ok true) ∧
    (∀ a b : Option BareMetalHostReference, BMHRefsMatch a b = BMHRefsMatch b a) := by
  refine ⟨fun a b => ⟨_, BMHRefsMatch_eq_decide a b⟩, fun a => ?_, fun a b => ?_⟩
  · rw [BMHRefsMatch_eq_decide, decide_eq_true rfl]
  · rw [BMHRefsMatch_eq_decide, BMHRefsMatch_eq_decide]
    congr 1
    rw [decide_eq_decide]
    exact eq_comm

/-! ## Create, delete, and further properties of the update rule -/

/-- C11: there is no guard on create or delete. For every `ClusterConfig`,
whether its `BareMetalHostRef` is set or not, `ValidateCreate` and
`ValidateDelete` return a nil error. -/
theorem ValidateCreate_ValidateDelete_no_error {μ σ τ : Type} (r : ClusterConfig μ σ τ) :
    r.ValidateCreate.2 = none ∧ r.ValidateDelete.2 = none ∧
    (∀ ref : BareMetalHostReference,
      ({ r with Spec := { r.Spec with BareMetalHostRef := some ref } }).ValidateCreate.2 = none ∧
      ({ r with Spec := { r.Spec with BareMetalHostRef := some ref } }).ValidateDelete.2 = none) :=
  ⟨rfl, rfl, fun _ => ⟨rfl, rfl⟩⟩

section Further

variable {μ σ τ : Type} [DecidableEq μ] [DecidableEq σ] [DecidableEq τ] [Inhabited τ]

/-- C12: `ValidateUpdate` has no side effects on its inputs. Started in any
heap in which the receiver and, when it is a `ClusterConfig`, the old object
are allocated, the call returns, the heap it leaves extends the one it
started from, and the receiver and the old object read as before; the two
`Status` assignments of `isStatusUpdate` go to the copies. -/
theorem ValidateUpdate_no_side_effects (h : Heap μ σ τ) (r : Ptr) (old : ObjectRef)
    (hr : r < h.length) (hold : ∀ p, old = .clusterConfig p → p < h.length) :
    ∃ v h1, Mem.ValidateUpdate r old h = .ok (v, h1) ∧ h <+: h1 ∧
      Mem.load h1 r = Mem.load h r ∧
      (∀ p, old = .clusterConfig p → Mem.load h1 p = Mem.load h p) := by
  obtain ⟨n, hn⟩ : ∃ n, h[r]? = some n := ⟨h[r], List.getElem?_eq_getElem hr⟩
  cases old with
  | nil =>
    refine ⟨(none, some typeMismatchMessage), h, ?_, List.prefix_refl h, rfl,
      fun p hp => by cases hp⟩
    simp [Mem.ValidateUpdate, Mem.load_eq hn, bind, Except.bind, pure, Except.pure]
  | other kind =>
    refine ⟨(none, some typeMismatchMessage), h, ?_, List.prefix_refl h, rfl,
      fun p hp => by cases hp⟩
    simp [Mem.ValidateUpdate, Mem.load_eq hn, bind, Except.bind, pure, Except.pure]
  | clusterConfig q =>
    have hq : q < h.length := hold q rfl
    obtain ⟨o, ho⟩ : ∃ o, h[q]? = some o := ⟨h[q], List.getElem?_eq_getElem hq⟩
    obtain ⟨v, extra, hrun, -⟩ := Mem.ValidateUpdate_on_heap h q r o n ho hn
    refine ⟨v, h ++ extra, hrun, List.prefix_append h extra, ?_, fun p hp => ?_⟩
    · rw [Mem.load_eq hn, Mem.load_eq (Mem.getElem?_append_of_some hn extra)]
    · cases hp
      rw [Mem.load_eq ho, Mem.load_eq (Mem.getElem?_append_of_some ho extra)]

/-- C12 on the heap of the tests: the new object at address 1 is validated
against the old object at address 0, on the path that runs `isStatusUpdate`
and rejects. -/
theorem ValidateUpdate_no_side_effects_witness :
    1 < testHeap.length ∧
    (∀ p, ObjectRef.clusterConfig 0 = .clusterConfig p → p < testHeap.length) ∧
    ∃ v h1, Mem.ValidateUpdate 1 (.clusterConfig 0) testHeap = .ok (v, h1) ∧ testHeap <+: h1 ∧
      Mem.load h1 1 = Mem.load testHeap 1 ∧
      (∀ p, ObjectRef.clusterConfig 0 = .clusterConfig p → Mem.load h1 p = Mem.load testHeap p) :=
  ⟨by decide, fun p hp => by cases hp; decide,
    ValidateUpdate_no_side_effects testHeap 1 (.clusterConfig 0) (by decide)
      (fun p hp => by cases hp; decide)⟩

/-- C13, as stated, fails: two snapshots with the same spec, name and
namespace, of which only the second carries a finalizer, are equal for the
field-wise comparison of spec and identity metadata, and `isStatusUpdate` is
false on them. -/
theorem isStatusUpdate_fieldwise_counterexample :
    specAndIdentityEqual
        (testConfigWithFinalizers none "thing.example.com" (some testBMH) default)
        (testConfigWithFinalizers (some ["clusterconfig/deprovision"]) "thing.example.com"
          (some testBMH) default) = true ∧
    isStatusUpdate
        (testConfigWithFinalizers none "thing.example.com" (some testBMH) default)
        (testConfigWithFinalizers (some ["clusterconfig/deprovision"]) "thing.example.com"
          (some testBMH) default) = false :=
  ⟨by decide, by decide⟩

/-- C13, amended: `isStatusUpdate` is true exactly when the two snapshots are
equal in every field outside `Status`, that is when the field-wise comparison
of spec and identity metadata finds them equal and, in addition, the whole
object metadata and the type metadata are equal. In particular
`isStatusUpdate` implies the field-wise comparison. -/
theorem isStatusUpdate_fieldwise (oldConfig r : ClusterConfig μ σ τ) :
    (isStatusUpdate oldConfig r = true ↔
      specAndIdentityEqual oldConfig r = true ∧
        oldConfig.ObjectMeta = r.ObjectMeta ∧ oldConfig.TypeMeta = r.TypeMeta) ∧
    (isStatusUpdate oldConfig r = true → specAndIdentityEqual oldConfig r = true) := by
  have key : isStatusUpdate oldConfig r = true ↔
      specAndIdentityEqual oldConfig r = true ∧
        oldConfig.ObjectMeta = r.ObjectMeta ∧ oldConfig.TypeMeta = r.TypeMeta := by
    rw [isStatusUpdate_iff]
    simp only [differOutsideStatus, specAndIdentityEqual, Bool.and_eq_true, decide_eq_true_eq]
    constructor
    · intro hd
      have h1 : oldConfig.TypeMeta = r.TypeMeta := by
        by_contra hc; exact hd (Or.inl hc)
      have h2 : oldConfig.ObjectMeta = r.ObjectMeta := by
        by_contra hc; exact hd (Or.inr (Or.inl hc))
      have h3 : oldConfig.Spec = r.Spec := by
        by_contra hc; exact hd (Or.inr (Or.inr hc))
      exact ⟨⟨h3, by rw [h2], by rw [h2]⟩, h2, h1⟩
    · rintro ⟨⟨h3, -, -⟩, h2, h1⟩ hd
      rcases hd with hd | hd | hd
      · exact hd h1
      · exact hd h2
      · exact hd h3
  exact ⟨key, fun h => (key.mp h).1⟩

/-- C14: a status-only update never changes the binding. When
`isStatusUpdate` is true on two snapshots, `BMHRefsMatch` of their references
returns true. -/
theorem isStatusUpdate_refs_match (oldConfig r : ClusterConfig μ σ τ)
    (h : isStatusUpdate oldConfig r = true) :
    BMHRefsMatch oldConfig.Spec.BareMetalHostRef r.Spec.BareMetalHostRef = .ok true := by
  have hd : ¬ differOutsideStatus oldConfig r := (isStatusUpdate_iff oldConfig r).mp h
  have hs : oldConfig.Spec = r.Spec := by
    by_contra hc; exact hd (Or.inr (Or.inr hc))
  rw [BMHRefsMatch_eq_decide, hs, decide_eq_true rfl]

/-- C14 at the status update of the tests. -/
theorem isStatusUpdate_refs_match_witness :
    isStatusUpdate (testConfig "thing.example.com" (some testBMH) default)
        (testConfig "thing.example.com" (some testBMH) imageReadyStatus) = true ∧
    BMHRefsMatch (testConfig "thing.example.com" (some testBMH) default).Spec.BareMetalHostRef
        (testConfig "thing.example.com" (some testBMH) imageReadyStatus).Spec.BareMetalHostRef =
      .ok true :=
  ⟨by decide, isStatusUpdate_refs_match _ _ (by decide)⟩

/-- C15: the binding guard also blocks metadata-only changes. When the old
`BareMetalHostRef` is set, the new spec equals the old spec, and the object
metadata or the type metadata differ, `ValidateUpdate` returns the
binding-conflict error. -/
theorem ValidateUpdate_metadata_change (r oldConfig : ClusterConfig μ σ τ)
    (hb : oldConfig.Spec.BareMetalHostRef ≠ none) (hs : r.Spec = oldConfig.Spec)
    (hm : r.ObjectMeta ≠ oldConfig.ObjectMeta ∨ r.TypeMeta ≠ oldConfig.TypeMeta) :
    r.ValidateUpdate (.clusterConfig oldConfig) = .ok (none, some bindingConflictMessage) := by
  rw [ValidateUpdate_clusterConfig, if_pos]
  refine ⟨Or.inl hb, by rw [hs], ?_⟩
  rcases hm with hm | hm
  · exact Or.inr (Or.inl fun h => hm h.symm)
  · exact Or.inl fun h => hm h.symm

/-- C15 at a bound object to which only a finalizer is added. -/
theorem ValidateUpdate_metadata_change_witness :
    (testConfigWithFinalizers none "thing.example.com" (some testBMH)
        default).Spec.BareMetalHostRef ≠ none ∧
    (testConfigWithFinalizers (some ["clusterconfig/deprovision"]) "thing.example.com"
        (some testBMH) default).Spec =
      (testConfigWithFinalizers none "thing.example.com" (some testBMH) default).Spec ∧
    (testConfigWithFinalizers (some ["clusterconfig/deprovision"]) "thing.example.com"
        (some testBMH) default).ValidateUpdate
        (.clusterConfig
          (testConfigWithFinalizers none "thing.example.com" (some testBMH) default)) =
      .ok (none, some bindingConflictMessage) :=
  ⟨by decide, rfl, ValidateUpdate_metadata_change _ _ (by decide) rfl (Or.inl (by decide))⟩

/-- C16: the update decision is direction-agnostic. For all snapshots `a` and
`b`, validating `a` against `b` and `b` against `a` give the same result, so
one returns an error exactly when the other does; the both-nil check,
`isStatusUpdate` and `BMHRefsMatch` are each symmetric. -/
theorem ValidateUpdate_symmetric (a b : ClusterConfig μ σ τ) :
    returnsError (a.ValidateUpdate (.clusterConfig b)) =
      returnsError (b.ValidateUpdate (.clusterConfig a)) ∧
    a.ValidateUpdate (.clusterConfig b) = b.ValidateUpdate (.clusterConfig a) ∧
    isStatusUpdate a b = isStatusUpdate b a ∧
    BMHRefsMatch a.Spec.BareMetalHostRef b.Spec.BareMetalHostRef =
      BMHRefsMatch b.Spec.BareMetalHostRef a.Spec.BareMetalHostRef := by
  have hdiff : differOutsideStatus a b ↔ differOutsideStatus b a := by
    simp only [differOutsideStatus, ne_comm]
  have hstat : isStatusUpdate a b = isStatusUpdate b a := by
    rw [Bool.eq_iff_iff, isStatusUpdate_iff, isStatusUpdate_iff, hdiff]
  have hcond :
      ((b.Spec.BareMetalHostRef ≠ none ∨ a.Spec.BareMetalHostRef ≠ none) ∧
        b.Spec.BareMetalHostRef = a.Spec.BareMetalHostRef ∧ differOutsideStatus b a) ↔
      ((a.Spec.BareMetalHostRef ≠ none ∨ b.Spec.BareMetalHostRef ≠ none) ∧
        a.Spec.BareMetalHostRef = b.Spec.BareMetalHostRef ∧ differOutsideStatus a b) := by
    rw [hdiff, or_comm, eq_comm]
  have hres : a.ValidateUpdate (.clusterConfig b) = b.ValidateUpdate (.clusterConfig a) := by
    rw [ValidateUpdate_clusterConfig, ValidateUpdate_clusterConfig]
    simp only [hcond]
  refine ⟨by rw [hres], hres, hstat, ?_⟩
  rw [BMHRefsMatch_eq_decide, BMHRefsMatch_eq_decide]
  congr 1
  rw [decide_eq_decide]
  exact eq_comm

end Further

end V1alpha1

/-! ## The route lookup -/

namespace Manager

/-- C17: `routeURL` fails fast on incomplete configuration. When `RouteName`,
`RouteNamespace` or `RouteScheme` is empty it returns the empty string and an
error, and makes no lookup. When all three are set and the lookup of the route
succeeds, it returns an error exactly when the host of the route is empty, and
otherwise the URL of `RouteScheme` and the host, the host followed by a colon
and `RoutePort` exactly when `RoutePort` is not empty. -/
theorem routeURL_spec (urlString : URL → String) (opts : ImageClusterInstallReconcilerOptions)
    (c : Client) :
    (opts.RouteName = "" ∨ opts.RouteNamespace = "" ∨ opts.RouteScheme = "" →
      ∃ msg, routeURL urlString opts c = (("", some msg), [])) ∧
    (∀ route : Route,
      opts.RouteName ≠ "" → opts.RouteNamespace ≠ "" → opts.RouteScheme ≠ "" →
      c.Get { Name := opts.RouteName, Namespace := opts.RouteNamespace } = .ok route →
      ((routeURL urlString opts c).1.2 ≠ none ↔ route.Spec.Host = "") ∧
      (route.Spec.Host = "" → (routeURL urlString opts c).1.1 = "") ∧
      (route.Spec.Host ≠ "" →
        (routeURL urlString opts c).1 =
          (urlString
            { Scheme := opts.RouteScheme
              Host := if opts.RoutePort ≠ "" then route.Spec.Host ++ ":" ++ opts.RoutePort
                else route.Spec.Host }, none))) := by
  constructor
  · intro h
    exact ⟨_, by rw [routeURL, if_pos h]⟩
  · intro route h1 h2 h3 hget
    have hc : ¬ (opts.RouteName = "" ∨ opts.RouteNamespace = "" ∨ opts.RouteScheme = "") := by
      rintro (h | h | h)
      · exact h1 h
      · exact h2 h
      · exact h3 h
    by_cases hh : route.Spec.Host = ""
    · have hrun : routeURL urlString opts c =
          (("", some ("route " ++
            keyString { Name := opts.RouteName, Namespace := opts.RouteNamespace } ++
            " host is unset")),
            [{ Name := opts.RouteName, Namespace := opts.RouteNamespace }]) := by
        simp only [routeURL, if_neg hc, hget, if_pos hh]
      rw [hrun]
      exact ⟨⟨fun _ => hh, fun _ => by simp⟩, fun _ => rfl, fun h => absurd hh h⟩
    · have hrun : routeURL urlString opts c =
          ((urlString
            { Scheme := opts.RouteScheme
              Host := if opts.RoutePort ≠ "" then route.Spec.Host ++ ":" ++ opts.RoutePort
                else route.Spec.Host }, none),
            [{ Name := opts.RouteName, Namespace := opts.RouteNamespace }]) := by
        simp only [routeURL, if_neg hc, hget, if_neg hh]
      rw [hrun]
      exact ⟨⟨fun h => absurd rfl h, fun h => absurd h hh⟩, fun h => absurd h hh, fun _ => rfl⟩

/-- C17 on concrete options: with the namespace missing nothing is looked up
and an error comes back; with all three set, a port and a route whose host is
set, the URL carries the host and the port. -/
theorem routeURL_spec_witness :
    (∃ msg, routeURL plainURLString ⟨"image-service", "", "https", "8443"⟩
        (oneRouteClient "img.apps.example.com") = (("", some msg), [])) ∧
    (routeURL plainURLString ⟨"image-service", "operator-ns", "https", "8443"⟩
        (oneRouteClient "img.apps.example.com")).1 =
      ("https://img.apps.example.com:8443", none) :=
  ⟨(routeURL_spec plainURLString ⟨"image-service", "", "https", "8443"⟩
      (oneRouteClient "img.apps.example.com")).1 (Or.inr (Or.inl rfl)),
    ((routeURL_spec plainURLString ⟨"image-service", "operator-ns", "https", "8443"⟩
      (oneRouteClient "img.apps.example.com")).2 ⟨⟨"img.apps.example.com"⟩⟩
      (by decide) (by decide) (by decide) rfl).2.2 (by decide)⟩

end Manager
